import Mathlib

/-!
Shallow embedding of `src/strava_sync.py` (a Strava activity sync script)
and verification of the frozen claims about it.

Modelling conventions:
* Python dicts for activities become a fixed `Activity` structure with
  `Option` fields; a missing dict key is `none`.
* Python numeric values (floats/ints) are modelled over `ℚ` (exact
  rationals); `round(x, 2)` is modelled with half-to-even rounding.
* Files are modelled by their parsed contents: `Option (List row)` where
  `none` means the file does not exist.
* HTTP traffic is modelled by a response oracle `Nat → Resp`: the n-th
  request made by the code receives the n-th response of the oracle.
* The unbounded `while True` loop of `fetch_activities` is modelled with
  explicit fuel; running out of fuel is a distinct outcome, so
  non-termination of the source loop is expressible.
-/

namespace StravaSync

/-- An activity record as produced by the Strava API (summary or detail).
Only the fields the script actually reads are modelled; each is optional
because the script accesses them with `dict.get`. -/
structure Activity where
  id : Option Nat := none
  name : Option String := none
  start_date : Option String := none
  type : Option String := none
  distance : Option ℚ := none
  moving_time : Option ℚ := none
  elapsed_time : Option ℚ := none
  total_elevation_gain : Option ℚ := none
  average_speed : Option ℚ := none
  max_speed : Option ℚ := none
  average_heartrate : Option ℚ := none
  max_heartrate : Option ℚ := none
  map_summary_polyline : Option String := none
deriving DecidableEq, Repr

/-- Python banker's rounding (`round`) to an integer, on exact rationals. -/
def roundHalfEven (q : ℚ) : ℤ :=
  let f : ℤ := ⌊q⌋
  let r : ℚ := q - (f : ℚ)
  if r < 1/2 then f
  else if 1/2 < r then f + 1
  else if f % 2 = 0 then f else f + 1

/-- `round(x, 2)` from the source, over exact rationals. -/
def round2 (q : ℚ) : ℚ := (roundHalfEven (q * 100) : ℚ) / 100

/-- One row of the activities CSV file, with the columns written by
`prepare_csv_row`.  The `ID` column is a string because CSV round-trips
values as text (`read_existing_ids` compares string ids). -/
structure CsvRow where
  id : String
  naam : String
  datum : String
  type : String
  afstand_km : ℚ
  tijd_min : ℚ
  totale_tijd_min : ℚ
  hoogtemeters : ℚ
  gemiddelde_snelheid : ℚ
  max_snelheid : ℚ
  gemiddelde_hartslag : Option ℚ
  max_hartslag : Option ℚ
deriving DecidableEq, Repr

/-- `prepare_csv_row` from the source: flattens an activity dict into the
CSV row shape (3.6 = 36/10 as an exact rational). -/
def prepare_csv_row (a : Activity) : CsvRow where
  id := match a.id with
    | some n => toString n
    | none => "Onbekend"
  naam := a.name.getD "Onbekend"
  datum := a.start_date.getD "Onbekend"
  type := a.type.getD "Onbekend"
  afstand_km := round2 (a.distance.getD 0 / 1000)
  tijd_min := round2 (a.moving_time.getD 0 / 60)
  totale_tijd_min := round2 (a.elapsed_time.getD 0 / 60)
  hoogtemeters := a.total_elevation_gain.getD 0
  gemiddelde_snelheid := round2 (a.average_speed.getD 0 * (36/10))
  max_snelheid := round2 (a.max_speed.getD 0 * (36/10))
  gemiddelde_hartslag := a.average_heartrate
  max_hartslag := a.max_heartrate

/-- `str(activity.get("id", ""))` from `save_csv`: the string id used for
the duplicate check ("" when the id key is absent). -/
def activityIdStr (a : Activity) : String :=
  match a.id with
  | some n => toString n
  | none => ""

/-- The CSV file's parsed contents: `none` = file does not exist,
`some rows` = the data rows after the header. -/
abbrev CsvFile := Option (List CsvRow)

/-- `read_existing_ids` from the source: the set of non-empty `ID` values
present in the CSV file (empty when the file does not exist). -/
def read_existing_ids (file : CsvFile) : Finset String :=
  match file with
  | none => ∅
  | some rows => (rows.filterMap fun r => if r.id = "" then none else some r.id).toFinset

/-- The `new_rows` accumulation loop of `save_csv`: keep activities whose
string id is non-empty and not already in the file, in batch order. -/
def csvNewRows (activities : List Activity) (file : CsvFile) : List CsvRow :=
  activities.filterMap fun a =>
    if activityIdStr a = "" ∨ activityIdStr a ∈ read_existing_ids file then none
    else some (prepare_csv_row a)

/-- `save_csv` from the source: builds the set of ids already in the file,
filters the batch down to activities with a non-empty id not in that set,
and appends the prepared rows (creating the file if absent; when there are
no new rows the file is left untouched).  Returns the new file state and
the number of appended rows. -/
def save_csv (activities : List Activity) (file : CsvFile) : CsvFile × Nat :=
  let new_rows := csvNewRows activities file
  if new_rows = [] then (file, 0)
  else
    match file with
    | some rows => (some (rows ++ new_rows), new_rows.length)
    | none => (some new_rows, new_rows.length)

/-- `save_json` from the source: if the file exists its parsed contents
(`[]` when unparseable) are extended with the whole batch and written
back; otherwise the batch alone is written.  No id-based filtering is
performed.  Returns the new file contents. -/
def save_json (all_activities : List Activity) (file : Option (List Activity)) :
    List Activity :=
  match file with
  | some existing => existing ++ all_activities
  | none => all_activities

/-! ### Date parsing and the sync watermark (`get_last_activity_date`) -/

/-- A parsed `datetime.datetime` value (only the fields `strptime` fills
from the three formats the script uses). -/
structure PyDateTime where
  year : Nat
  month : Nat
  day : Nat
  hour : Nat
  minute : Nat
  second : Nat
deriving DecidableEq, Repr

/-- Mixed-radix encoding of a datetime; on values produced by the parser
(whose fields satisfy the `strptime` range checks) it is injective and
order-preserving for Python's component-wise datetime comparison. -/
def PyDateTime.key (d : PyDateTime) : Nat :=
  ((((d.year * 13 + d.month) * 32 + d.day) * 24 + d.hour) * 60 + d.minute) * 62 + d.second

/-- Split a character list on a separator character (like `str.split`). -/
def splitOnChar (c : Char) : List Char → List (List Char)
  | [] => [[]]
  | x :: xs =>
    match splitOnChar c xs with
    | [] => [[]]
    | y :: ys => if x = c then [] :: y :: ys else (x :: y) :: ys

/-- Digits-only decimal reading of a character list. -/
def digitsToNat (cs : List Char) : Nat :=
  cs.foldl (fun n c => n * 10 + (c.toNat - 48)) 0

/-- Parse a non-empty all-digit character list as a natural number
(a numeric `strptime` field). -/
def parseNatDigits (cs : List Char) : Option Nat :=
  if cs ≠ [] ∧ cs.all (fun c => c.isDigit) then some (digitsToNat cs) else none

/-- `strptime` range validation for the parsed components. -/
def mkDT (y mo d h mi s : Nat) : Option PyDateTime :=
  if 1 ≤ mo ∧ mo ≤ 12 ∧ 1 ≤ d ∧ d ≤ 31 ∧ h ≤ 23 ∧ mi ≤ 59 ∧ s ≤ 61 then
    some ⟨y, mo, d, h, mi, s⟩
  else none

/-- Parse the date part `%Y-%m-%d`. -/
def parseYmd (cs : List Char) : Option (Nat × Nat × Nat) :=
  match splitOnChar (Char.ofNat 45) cs with
  | [ys, ms, ds] => do
    let y ← parseNatDigits ys
    let m ← parseNatDigits ms
    let d ← parseNatDigits ds
    pure (y, m, d)
  | _ => none

/-- Parse the time part `%H:%M:%S`. -/
def parseHms (cs : List Char) : Option (Nat × Nat × Nat) :=
  match splitOnChar (Char.ofNat 58) cs with
  | [hs, ms, ss] => do
    let h ← parseNatDigits hs
    let m ← parseNatDigits ms
    let s ← parseNatDigits ss
    pure (h, m, s)
  | _ => none

/-- `strptime(value, "%Y-%m-%dT%H:%M:%SZ")`. -/
def parseIsoZ (s : String) : Option PyDateTime :=
  match splitOnChar (Char.ofNat 84) s.toList with
  | [dpart, tpart] =>
    match tpart.getLast? with
    | some c =>
      if c = Char.ofNat 90 then do
        let (y, mo, d) ← parseYmd dpart
        let (h, mi, sec) ← parseHms tpart.dropLast
        mkDT y mo d h mi sec
      else none
    | none => none
  | _ => none

/-- `strptime(value, "%Y-%m-%d %H:%M:%S")`. -/
def parseSpaceFmt (s : String) : Option PyDateTime :=
  match splitOnChar (Char.ofNat 32) s.toList with
  | [dpart, tpart] => do
    let (y, mo, d) ← parseYmd dpart
    let (h, mi, sec) ← parseHms tpart
    mkDT y mo d h mi sec
  | _ => none

/-- `strptime(value, "%Y-%m-%d")` (time components default to zero). -/
def parseDateOnly (s : String) : Option PyDateTime := do
  let (y, mo, d) ← parseYmd s.toList
  mkDT y mo d 0 0 0

/-- The format cascade of `get_last_activity_date`: the three formats are
tried in order and the first success wins. -/
def parseDatum (s : String) : Option PyDateTime :=
  match parseIsoZ s with
  | some d => some d
  | none =>
    match parseSpaceFmt s with
    | some d => some d
    | none => parseDateOnly s

/-- The parseable dates among the CSV rows: skip empty / "Onbekend"
values, then skip rows no format parses (the source appends only on a
successful parse). -/
def parsedDates (rows : List CsvRow) : List PyDateTime :=
  rows.filterMap fun r =>
    if r.datum = "" ∨ r.datum = "Onbekend" then none else parseDatum r.datum

/-- Python's `max` over datetimes: keep the current maximum, replace only
when the next item is strictly greater. -/
def pickMax (a b : PyDateTime) : PyDateTime :=
  if a.key < b.key then b else a

/-- `get_last_activity_date` from the source: `none` when the file does
not exist or no row has a parseable date, otherwise the maximum parsed
date. -/
def get_last_activity_date (file : CsvFile) : Option PyDateTime :=
  match file with
  | none => none
  | some rows =>
    match parsedDates rows with
    | [] => none
    | d :: ds => some (ds.foldl pickMax d)

/-- Key of an optional watermark, with `none` (no watermark) below every
parsed date (every parsed date has `month ≥ 1`, hence a positive key). -/
def wmKey (o : Option PyDateTime) : Nat :=
  match o with
  | none => 0
  | some d => d.key

/-! ### `fetch_activities`: pagination with 429/401 handling -/

/-- A response to one activities-list page request. -/
inductive PageResp where
  | ok (acts : List Activity)
  | rate
  | unauth
  | err (code : Nat)
deriving DecidableEq, Repr

/-- The parameters of one issued page request: the `params` dict
(`page`, `per_page`, `after`) plus the bearer token of the headers. -/
structure PageReq where
  page : Nat
  perPage : Nat
  after : Option ℤ
  token : String
deriving DecidableEq, Repr

/-- Outcome of the fetch loop.  `outOfFuel` is the modelling artefact for
a loop that has not terminated within the given fuel. -/
inductive FetchOutcome where
  | done (acts : List Activity)
  | authError
  | httpError (code : Nat)
  | outOfFuel
deriving DecidableEq, Repr

/-- Drop the first `k` responses of an oracle (they have been consumed). -/
def shiftResp (p : Nat → PageResp) (k : Nat) : Nat → PageResp :=
  fun j => p (j + k)

/-- The `while True` loop of `fetch_activities`, with fuel.  `newTok` is
the token `get_access_token()` returns when invoked on a 401; state is
(token, page, accumulated activities); the request log records every
issued request in order.  A 401 response triggers one immediate retry of
the same page with the fresh token; a second 401 raises; 429 sleeps and
re-enters the loop without advancing the page; an empty page breaks;
other non-2xx statuses raise via `raise_for_status`. -/
def fetchGo (newTok : String) (afterTs : Option ℤ) :
    Nat → (Nat → PageResp) → String → Nat → List Activity → List PageReq →
    FetchOutcome × List PageReq
  | 0, _, _, _, _, log => (.outOfFuel, log)
  | fuel + 1, p, tok, page, acc, log =>
    let req : PageReq := ⟨page, 200, afterTs, tok⟩
    match p 0 with
    | .unauth =>
      let req2 : PageReq := ⟨page, 200, afterTs, newTok⟩
      match p 1 with
      | .unauth => (.authError, log ++ [req, req2])
      | .rate => fetchGo newTok afterTs fuel (shiftResp p 2) newTok page acc (log ++ [req, req2])
      | .err c => (.httpError c, log ++ [req, req2])
      | .ok xs =>
        if xs.isEmpty then (.done acc, log ++ [req, req2])
        else fetchGo newTok afterTs fuel (shiftResp p 2) newTok (page + 1) (acc ++ xs)
          (log ++ [req, req2])
    | .rate => fetchGo newTok afterTs fuel (shiftResp p 1) tok page acc (log ++ [req])
    | .err c => (.httpError c, log ++ [req])
    | .ok xs =>
      if xs.isEmpty then (.done acc, log ++ [req])
      else fetchGo newTok afterTs fuel (shiftResp p 1) tok (page + 1) (acc ++ xs)
        (log ++ [req])

/-- `fetch_activities` from the source: page numbering starts at 1,
`per_page = 200`, `after` included when a watermark is present (the
`datetime`-to-unix conversion is abstracted into the `afterTs` integer). -/
def fetch_activities (p : Nat → PageResp) (token newTok : String)
    (afterTs : Option ℤ) (fuel : Nat) : FetchOutcome × List PageReq :=
  fetchGo newTok afterTs fuel p token 1 [] []

/-- A provider serving a fixed list of pages in order and empty pages
afterwards (one response per request; `fetch_activities` never re-asks a
page except after 429/401, which this pure oracle represents positionally). -/
def pagedProvider (pages : List (List Activity)) : Nat → PageResp :=
  fun i => .ok ((pages.drop i).headD [])

/-! ### `fetch_activity_details`: bounded retry -/

/-- A response to one activity-detail request. -/
inductive DetailResp where
  | ok (d : Activity)
  | rate
  | fail (code : Nat)
deriving DecidableEq, Repr

/-- The `for attempt in range(3)` loop of `fetch_activity_details`:
each attempt issues one request; 429 sleeps and consumes the attempt;
a 2xx returns the payload; other failures sleep and consume the attempt;
exhausting the three attempts returns `None`.  Also counts requests. -/
def fetchDetailGo (p : Nat → DetailResp) : Nat → Nat → Option Activity × Nat
  | 0, n => (none, n)
  | attempts + 1, n =>
    match p n with
    | .ok d => (some d, n + 1)
    | .rate => fetchDetailGo p attempts (n + 1)
    | .fail _ => fetchDetailGo p attempts (n + 1)

/-- `fetch_activity_details` from the source, returning the optional
detail payload and the number of requests issued. -/
def fetch_activity_details (p : Nat → DetailResp) : Option Activity × Nat :=
  fetchDetailGo p 3 0

/-- The per-activity detail loop of `main`: activities with a falsy id
(absent or 0) are skipped entirely; otherwise the detail fetch result is
used when present and the unmodified summary record otherwise
(`det if det else act`). -/
def detailPhase (providers : Nat → Nat → DetailResp) (summaries : List Activity) :
    List Activity :=
  summaries.filterMap fun act =>
    match act.id with
    | none => none
    | some n =>
      if n = 0 then none
      else some ((fetch_activity_details (providers n)).1.getD act)

/-! ### `get_access_token`: token refresh, rotation persistence -/

/-- A parsed token-endpoint response body together with its HTTP status. -/
structure TokenResp where
  status : Nat
  access_token : Option String := none
  refresh_token : Option String := none
  expires_in : Option Nat := none
deriving DecidableEq, Repr

/-- One `TokenStore.save_tokens` call (an upsert of the credential row). -/
structure TokenWrite where
  access_token : Option String
  refresh_token : String
  expires_at : Nat
deriving DecidableEq, Repr

/-- The result of `get_access_token`: the returned token or the raised
error. -/
inductive TokenResult where
  | ok (access : String)
  | error (msg : String)
deriving DecidableEq, Repr

/-- Observable behaviour of one `get_access_token` call: its result and
the credential-store writes it performed, in program order (every write
in the list happens before the function returns). -/
structure GatOut where
  result : TokenResult
  writes : List TokenWrite
deriving DecidableEq, Repr

/-- Python truthiness for optional strings: `None` and `""` are falsy. -/
def truthy (o : Option String) : Option String :=
  match o with
  | some s => if s = "" then none else some s
  | none => none

/-- The HTTP-200 branch of the refresh exchange (source lines 123-146):
if the response body contains a (truthy) `refresh_token` it is persisted
via `store.save_tokens` when a store is configured — whether or not it
differs from the token that was sent — and then `data["access_token"]`
is returned (a missing key raises). -/
def handleRefresh200 (storePresent : Bool) (now : Nat) (resp : TokenResp) : GatOut :=
  let writes :=
    match resp.refresh_token with
    | some nr =>
      if nr = "" then []
      else if storePresent then [⟨resp.access_token, nr, now + resp.expires_in.getD 0⟩]
      else []
    | none => []
  { result :=
      match resp.access_token with
      | some a => .ok a
      | none => .error "KeyError: access_token"
    writes := writes }

/-- The `STRAVA_AUTH_CODE` fallback path of `get_access_token`
(source lines 159-204), with `exchange_authorization_code` inlined:
401 and other ≥400 statuses raise; on success a falsy access token
raises before any store write; a truthy `refresh_token` is persisted
when a store is configured, then the access token is returned. -/
def authCodeFallback (storePresent : Bool) (authCode : Option String)
    (exch : TokenResp) (now : Nat) : GatOut :=
  match truthy authCode with
  | none => { result := .error "no valid refresh token and no STRAVA_AUTH_CODE", writes := [] }
  | some _ =>
    if exch.status = 401 then
      { result := .error "Unauthorized exchanging authorization code", writes := [] }
    else if 400 ≤ exch.status then
      { result := .error "Auth code exchange failed", writes := [] }
    else
      match truthy exch.access_token with
      | none => { result := .error "Failed to obtain access token", writes := [] }
      | some a =>
        let writes :=
          match exch.refresh_token with
          | some nr =>
            if nr = "" then []
            else if storePresent then [⟨some a, nr, now + exch.expires_in.getD 0⟩]
            else []
          | none => []
        { result := .ok a, writes := writes }

/-- `get_access_token` from the source.  `direct` is `STRAVA_ACCESS_TOKEN`;
`storedRefresh` is what `store.load_refresh_token()` yields when a store
is configured (`none` = load failed); `envRefresh` is
`STRAVA_REFRESH_TOKEN`; `r0`/`r1` answer the two refresh-exchange
attempts; `authCode`/`exch` drive the bootstrap fallback; `now` is the
current unix time.  The refresh loop runs at most twice: a second attempt
happens only after a 401 on the first; any other failure (or a second
failure) falls through to the auth-code path. -/
def get_access_token (direct : Option String) (storePresent : Bool)
    (storedRefresh envRefresh : Option String) (r0 r1 : TokenResp)
    (authCode : Option String) (exch : TokenResp) (now : Nat) : GatOut :=
  match truthy direct with
  | some t => { result := .ok t, writes := [] }
  | none =>
    let refreshTok : Option String :=
      match truthy (if storePresent then storedRefresh else none) with
      | some rt => some rt
      | none => truthy envRefresh
    match refreshTok with
    | some _ =>
      if r0.status = 200 then handleRefresh200 storePresent now r0
      else if r0.status = 401 then
        if r1.status = 200 then handleRefresh200 storePresent now r1
        else authCodeFallback storePresent authCode exch now
      else authCodeFallback storePresent authCode exch now
    | none => authCodeFallback storePresent authCode exch now

/-! ### `save_gps_csv`: truncate-and-rewrite GPS sink -/

/-- One data row of the GPS CSV file.  The timestamp is modelled as the
parsed start datetime plus the rational offset in seconds that
`timedelta(seconds=idx * time_per_point)` adds. -/
structure GpsRow where
  activityId : Option Nat
  activityName : Option String
  activityType : Option String
  lat : ℚ
  lng : ℚ
  tsStart : PyDateTime
  tsOffsetSeconds : ℚ
  dist : ℚ
  elev : ℚ
deriving DecidableEq, Repr

/-- The fixed header of the GPS CSV file. -/
def gpsFieldnames : List String :=
  ["ActivityID", "ActivityName", "ActivityType", "Latitude", "Longitude",
   "Timestamp", "Distance", "Elevation"]

/-- The GPS CSV file: the written header plus data rows. -/
structure GpsFile where
  header : List String
  rows : List GpsRow
deriving DecidableEq, Repr

/-- Python `int(...)` truncation toward zero on a rational. -/
def pyInt (q : ℚ) : ℤ :=
  if 0 ≤ q then ⌊q⌋ else ⌈q⌉

/-- The per-activity body of the `save_gps_csv` loop: skipped (no rows)
when the summary polyline is falsy, decoding raises or yields no points,
`start_date` is falsy or unparseable in the ISO format, or the moving
time truncates to 0; otherwise one row per decoded point.  `decode`
models the external `polyline.decode` (`none` = raised). -/
def gpsRowsFor (decode : String → Option (List (ℚ × ℚ))) (a : Activity) :
    List GpsRow :=
  match truthy a.map_summary_polyline with
  | none => []
  | some summary =>
    match decode summary with
    | none => []
    | some points =>
      if points = [] then []
      else
        match truthy a.start_date with
        | none => []
        | some start =>
          match parseIsoZ start with
          | none => []
          | some start_dt =>
            let total_points := points.length
            let duration := pyInt (a.moving_time.getD 0)
            if duration = 0 then []
            else
              let time_per_point : ℚ := (duration : ℚ) / total_points
              let total_distance : ℚ := a.distance.getD 0
              let total_elevation : ℚ := a.total_elevation_gain.getD 0
              let dist_per := total_distance / total_points
              let elev_per := total_elevation / total_points
              (List.range total_points).zip points |>.map fun ip =>
                { activityId := a.id
                  activityName := a.name
                  activityType := a.type
                  lat := ip.2.1
                  lng := ip.2.2
                  tsStart := start_dt
                  tsOffsetSeconds := (ip.1 : ℚ) * time_per_point
                  dist := dist_per
                  elev := elev_per }

/-- `save_gps_csv` from the source: the file is opened with mode "w"
(truncation), the header is written once, and rows are derived only from
the activities of this call — the previous file state `prev` is never
read. -/
def save_gps_csv (decode : String → Option (List (ℚ × ℚ)))
    (activities : List Activity) (_prev : Option GpsFile) : GpsFile :=
  { header := gpsFieldnames
    rows := (activities.map (gpsRowsFor decode)).flatten }

/-! ### The persistence phase of `main` -/

/-- The three sinks written at the end of `main`, in program order. -/
inductive Sink where
  | json
  | csv
  | gps
deriving DecidableEq, Repr

/-- Outcome of the persistence phase: which sink writes were attempted
(in order) and which sink's exception, if any, aborted the run. -/
structure PersistOut where
  attempted : List Sink
  failed : Option Sink
deriving DecidableEq, Repr

/-- The sink-write sequence of `main` (source lines 543-545):
`save_json`, `save_csv`, `save_gps_csv` are called one after another with
no exception handling, so the first raising sink aborts the run and the
remaining sinks are not attempted.  Each write is abstracted to a failure
flag, since the claim concerns control flow only. -/
def persistPhase (fails : Sink → Bool) : PersistOut :=
  if fails .json then ⟨[.json], some .json⟩
  else if fails .csv then ⟨[.json, .csv], some .csv⟩
  else if fails .gps then ⟨[.json, .csv, .gps], some .gps⟩
  else ⟨[.json, .csv, .gps], none⟩

/-! ### Observation helpers used by the claim statements -/

/-- Number of rows of a CSV file whose `ID` column equals `i`. -/
def countIdRows (i : String) (file : CsvFile) : Nat :=
  (file.getD []).countP fun r => r.id == i

/-- An oracle equal to `p` after one prepended response `r`. -/
def consResp (r : PageResp) (p : Nat → PageResp) : Nat → PageResp
  | 0 => r
  | j + 1 => p j

/-- A minimal activity with id 42, used in concrete scenarios. -/
def act42 : Activity := { id := some 42 }

/-- A CSV row with the given `Datum` value, used in concrete scenarios. -/
def rowWithDatum (s : String) : CsvRow :=
  { id := "1", naam := "n", datum := s, type := "Run", afstand_km := 0,
    tijd_min := 0, totale_tijd_min := 0, hoogtemeters := 0,
    gemiddelde_snelheid := 0, max_snelheid := 0,
    gemiddelde_hartslag := none, max_hartslag := none }

/-! ## Theorems -/

/-- Every row `save_csv` decides to append has an id that is not among the
ids already present in the file. -/
theorem csvNewRows_id_not_existing (activities : List Activity) (file : CsvFile)
    (r : CsvRow) (hr : r ∈ csvNewRows activities file) :
    r.id ∉ read_existing_ids file := by
  rcases List.mem_filterMap.mp hr with ⟨a, _, ha⟩
  by_cases hc : activityIdStr a = "" ∨ activityIdStr a ∈ read_existing_ids file
  · simp [hc] at ha
  · push_neg at hc
    rw [if_neg (by push_neg; exact hc)] at ha
    injection ha with ha
    subst ha
    have hid : (prepare_csv_row a).id = activityIdStr a := by
      cases hA : a.id with
      | none => exact absurd (by simp [activityIdStr, hA]) hc.1
      | some n => simp [prepare_csv_row, activityIdStr, hA]
    rw [hid]
    exact hc.2

/-- C1 (amended): only the CSV sink deduplicates by id.  `save_csv` builds
the id set from the file itself and never appends a row whose id is
already present: for every id already in the CSV file, the number of rows
carrying that id is unchanged by the write. -/
theorem C1_csv_dedup_by_file_ids (activities : List Activity) (file : CsvFile)
    (i : String) (hi : i ∈ read_existing_ids file) :
    countIdRows i (save_csv activities file).1 = countIdRows i file := by
  have hzero : (csvNewRows activities file).countP (fun r => r.id == i) = 0 := by
    rw [List.countP_eq_zero]
    intro r hr
    have := csvNewRows_id_not_existing activities file r hr
    simp only [beq_iff_eq]
    rintro rfl
    exact this hi
  by_cases hnew : csvNewRows activities file = []
  · simp [save_csv, hnew]
  · cases file with
    | none => simp [read_existing_ids] at hi
    | some rows =>
      simp only [save_csv, if_neg hnew]
      simp [countIdRows, List.countP_append, hzero]

/-- C1 counterexample: the JSON sink appends blindly.  With a JSON file
already containing the activity with id 42, writing a batch containing
id 42 again yields a file in which id 42 occurs twice. -/
theorem C1_json_duplicate_counterexample :
    1 < (save_json [act42] (some [act42])).countP (fun x => x.id == some 42) := by
  decide

/-- Witness for `C1_csv_dedup_by_file_ids` at a concrete input: a CSV file
containing a row with id "42" and a batch containing activity id 42. -/
theorem C1_csv_dedup_witness :
    "42" ∈ read_existing_ids (some [prepare_csv_row act42]) ∧
      countIdRows "42" (save_csv [act42] (some [prepare_csv_row act42])).1
        = countIdRows "42" (some [prepare_csv_row act42]) :=
  ⟨by decide, C1_csv_dedup_by_file_ids [act42] (some [prepare_csv_row act42]) "42" (by decide)⟩

/-- C9 (amended): the sinks of `main` are written sequentially (JSON,
then CSV, then GPS) with no isolation: the first failing sink aborts the
run, later sinks are not attempted, and a later sink is attempted exactly
when every earlier sink succeeded. -/
theorem C9_sink_failure_aborts_run (fails : Sink → Bool) :
    (fails .json = true → persistPhase fails = ⟨[.json], some .json⟩) ∧
    (fails .json = false → fails .csv = true →
      persistPhase fails = ⟨[.json, .csv], some .csv⟩) ∧
    (fails .json = false → fails .csv = false → fails .gps = true →
      persistPhase fails = ⟨[.json, .csv, .gps], some .gps⟩) ∧
    (fails .json = false → fails .csv = false → fails .gps = false →
      persistPhase fails = ⟨[.json, .csv, .gps], none⟩) := by
  refine ⟨fun h1 => ?_, fun h1 h2 => ?_, fun h1 h2 h3 => ?_, fun h1 h2 h3 => ?_⟩ <;>
    simp [persistPhase, h1]
  · simp [h2]
  · simp [h2, h3]
  · simp [h2, h3]

/-- C9 counterexample: when the JSON write fails, the CSV sink is not
attempted and the run aborts — contradicting the claim that a failure in
one sink leaves the other sinks attempted. -/
theorem C9_counterexample :
    Sink.csv ∉ (persistPhase fun s => s == Sink.json).attempted ∧
      (persistPhase fun s => s == Sink.json).failed = some Sink.json := by
  decide

/-- Witness for `C9_sink_failure_aborts_run` at a concrete input. -/
theorem C9_witness :
    (fun s => s == Sink.json) Sink.json = true ∧
      persistPhase (fun s => s == Sink.json) = ⟨[.json], some .json⟩ :=
  ⟨by decide, (C9_sink_failure_aborts_run (fun s => s == Sink.json)).1 (by decide)⟩

/-- C10 (confirmed): `save_gps_csv` truncates and rewrites: the result is
independent of the previous file state, contains exactly the fixed header,
and its rows are exactly those derived from the activities passed in this
call (so rows written by earlier runs are gone). -/
theorem C10_gps_truncate_rewrite (decode : String → Option (List (ℚ × ℚ)))
    (activities : List Activity) (prev1 prev2 : Option GpsFile) :
    save_gps_csv decode activities prev1 = save_gps_csv decode activities prev2 ∧
    (save_gps_csv decode activities prev1).header = gpsFieldnames ∧
    (save_gps_csv decode activities prev1).rows
      = (activities.map (gpsRowsFor decode)).flatten ∧
    ∀ r, r ∈ (save_gps_csv decode activities prev1).rows ↔
      ∃ a ∈ activities, r ∈ gpsRowsFor decode a := by
  refine ⟨rfl, rfl, rfl, fun r => ?_⟩
  simp [save_gps_csv, List.mem_flatten]

/-- C3 (amended): with a credential store configured and no direct token,
a refresh exchange answered with HTTP 200 performs exactly one store
write whenever the response body contains a (non-empty) `refresh_token` —
whether or not it differs from the token that was sent — and that write,
carrying the response's refresh token, happens before the access token is
returned (the `writes` list is complete when `result` is produced);
a 200 response without a `refresh_token` performs no store write. -/
theorem C3_refresh_persistence (sr : String) (r0 r1 : TokenResp)
    (authCode : Option String) (exch : TokenResp) (now : Nat)
    (hsr : sr ≠ "") (h200 : r0.status = 200) :
    (∀ nr, r0.refresh_token = some nr → nr ≠ "" →
       (get_access_token none true (some sr) none r0 r1 authCode exch now).writes
         = [⟨r0.access_token, nr, now + r0.expires_in.getD 0⟩]) ∧
    (r0.refresh_token = none →
       (get_access_token none true (some sr) none r0 r1 authCode exch now).writes = []) ∧
    (∀ a, r0.access_token = some a →
       (get_access_token none true (some sr) none r0 r1 authCode exch now).result
         = .ok a) := by
  refine ⟨fun nr hnr hne => ?_, fun hnone => ?_, fun a ha => ?_⟩ <;>
    simp [get_access_token, truthy, hsr, h200, handleRefresh200]
  · simp [hnr, hne]
  · simp [hnone]
  · simp [ha]

/-- C3 counterexample: a 200 refresh exchange that returns the *same*
refresh token that was sent ("rt") still performs a store write — the
claim's "exchanges that do not rotate the refresh token perform no such
write" is false on the code. -/
theorem C3_counterexample :
    (TokenResp.mk 200 (some "at") (some "rt") (some 100)).refresh_token = some "rt" ∧
      (get_access_token none true (some "rt") none
          (TokenResp.mk 200 (some "at") (some "rt") (some 100))
          (TokenResp.mk 500 none none none) none (TokenResp.mk 500 none none none) 50).writes
        = [⟨some "at", "rt", 150⟩] := by
  decide

/-- Witness for `C3_refresh_persistence` at a concrete rotated exchange. -/
theorem C3_witness :
    ("rt" : String) ≠ "" ∧ (TokenResp.mk 200 (some "at") (some "rt2") (some 100)).status = 200 ∧
      (get_access_token none true (some "rt") none
          (TokenResp.mk 200 (some "at") (some "rt2") (some 100))
          (TokenResp.mk 500 none none none) none (TokenResp.mk 500 none none none) 50).writes
        = [⟨some "at", "rt2", 150⟩] :=
  ⟨by decide, rfl,
    (C3_refresh_persistence "rt" (TokenResp.mk 200 (some "at") (some "rt2") (some 100))
        (TokenResp.mk 500 none none none) none (TokenResp.mk 500 none none none) 50
        (by decide) rfl).1 "rt2" rfl (by decide)⟩

/-- A list of length 200 (or any nonzero length) is not empty. -/
theorem isEmpty_false_of_length_pos (l : List Activity) (n : Nat)
    (h : l.length = n + 1) : l.isEmpty = false := by
  cases l with
  | nil => simp at h
  | cons a t => rfl

/-- C2 (amended): the fetch loop stops only on an empty page, so a
provider serving pages of sizes [200, 200, 57] (and empty pages after)
costs exactly 4 page requests — the 4th returning zero records — and
yields exactly 457 records in page order; a provider serving [200, 0]
costs exactly 2 requests and yields the 200 records of page 1. -/
theorem C2_pagination_termination :
    (∀ (p1 p2 p3 : List Activity) (tok newTok : String) (after : Option ℤ),
       p1.length = 200 → p2.length = 200 → p3.length = 57 →
       fetch_activities (pagedProvider [p1, p2, p3]) tok newTok after 5
           = (.done (p1 ++ p2 ++ p3),
              [⟨1, 200, after, tok⟩, ⟨2, 200, after, tok⟩, ⟨3, 200, after, tok⟩,
               ⟨4, 200, after, tok⟩]) ∧
         (p1 ++ p2 ++ p3).length = 457) ∧
    (∀ (p1 : List Activity) (tok newTok : String) (after : Option ℤ),
       p1.length = 200 →
       fetch_activities (pagedProvider [p1]) tok newTok after 5
         = (.done p1, [⟨1, 200, after, tok⟩, ⟨2, 200, after, tok⟩])) := by
  constructor
  · intro p1 p2 p3 tok newTok after h1 h2 h3
    have e1 : p1.isEmpty = false := isEmpty_false_of_length_pos p1 199 h1
    have e2 : p2.isEmpty = false := isEmpty_false_of_length_pos p2 199 h2
    have e3 : p3.isEmpty = false := isEmpty_false_of_length_pos p3 56 h3
    constructor
    · show fetchGo newTok after 5 (pagedProvider [p1, p2, p3]) tok 1 [] [] = _
      simp [fetchGo, pagedProvider, shiftResp, e1, e2, e3]
    · simp [h1, h2, h3]
  · intro p1 tok newTok after h1
    have e1 : p1.isEmpty = false := isEmpty_false_of_length_pos p1 199 h1
    show fetchGo newTok after 5 (pagedProvider [p1]) tok 1 [] [] = _
    simp [fetchGo, pagedProvider, shiftResp, e1]

/-- C2 counterexample: with pages of sizes [200, 200, 57] the fetcher
issues 4 requests, not the 3 the claim states. -/
theorem C2_counterexample :
    (fetch_activities
        (pagedProvider
          [List.replicate 200 act42, List.replicate 200 act42, List.replicate 57 act42])
        "tok" "newTok" none 5).2.length ≠ 3 := by
  decide

/-- Witness for `C2_pagination_termination` at concrete pages. -/
theorem C2_witness :
    (List.replicate 200 act42).length = 200 ∧ (List.replicate 57 act42).length = 57 ∧
      fetch_activities
          (pagedProvider
            [List.replicate 200 act42, List.replicate 200 act42, List.replicate 57 act42])
          "tok" "newTok" none 5
        = (.done (List.replicate 200 act42 ++ List.replicate 200 act42 ++
                  List.replicate 57 act42),
           [⟨1, 200, none, "tok"⟩, ⟨2, 200, none, "tok"⟩, ⟨3, 200, none, "tok"⟩,
            ⟨4, 200, none, "tok"⟩]) :=
  ⟨List.length_replicate 200 act42, List.length_replicate 57 act42,
    (C2_pagination_termination.1 (List.replicate 200 act42) (List.replicate 200 act42)
        (List.replicate 57 act42) "tok" "newTok" none (List.length_replicate 200 act42)
        (List.length_replicate 200 act42) (List.length_replicate 57 act42)).1⟩

/-- C4 (confirmed): a 429 response is a pure blocking wait.  From any loop
state, if the next response is a 429 the loop logs one request for the
current page and continues against the remaining responses with the page
counter, accumulated records and token unchanged — so the outcome
(including the returned record set) is exactly the outcome of the run in
which the 429 never occurred, and the re-issued request is the same page
with the same parameters. -/
theorem C4_rate_limit_retry (p : Nat → PageResp) (tok newTok : String)
    (after : Option ℤ) (fuel page : Nat) (acc : List Activity)
    (log : List PageReq) :
    fetchGo newTok after (fuel + 1) (consResp .rate p) tok page acc log
      = fetchGo newTok after fuel p tok page acc (log ++ [⟨page, 200, after, tok⟩]) :=
  rfl

/-- Under a provider that always answers 429, the fetch loop consumes all
its fuel: no amount of fuel makes it produce a result. -/
theorem fetchGo_allRate (newTok : String) (after : Option ℤ) :
    ∀ (fuel : Nat) (tok : String) (page : Nat) (acc : List Activity)
      (log : List PageReq),
      (fetchGo newTok after fuel (fun _ => PageResp.rate) tok page acc log).1
        = .outOfFuel := by
  intro fuel
  induction fuel with
  | zero => intro tok page acc log; rfl
  | succ fuel ih =>
    intro tok page acc log
    exact ih tok page acc (log ++ [⟨page, 200, after, tok⟩])

/-- Number of requests `fetchDetailGo` issues is bounded by the remaining
attempts. -/
theorem fetchDetailGo_req_bound (p : Nat → DetailResp) :
    ∀ (attempts n : Nat), (fetchDetailGo p attempts n).2 ≤ n + attempts := by
  intro attempts
  induction attempts with
  | zero => intro n; exact Nat.le_refl n
  | succ attempts ih =>
    intro n
    show (fetchDetailGo p (attempts + 1) n).2 ≤ n + (attempts + 1)
    unfold fetchDetailGo
    cases p n with
    | ok d => exact Nat.add_le_add_left (Nat.le_add_left 1 attempts) n
    | rate =>
      calc (fetchDetailGo p attempts (n + 1)).2 ≤ (n + 1) + attempts := ih (n + 1)
        _ = n + (attempts + 1) := by omega
    | fail c =>
      calc (fetchDetailGo p attempts (n + 1)).2 ≤ (n + 1) + attempts := ih (n + 1)
        _ = n + (attempts + 1) := by omega

/-- C5 (amended): only the detail fetch is bounded.
`fetch_activity_details` issues at most 3 requests for every response
sequence and surfaces `none` when the bounded retries are exhausted
(e.g. under perpetual 429); `fetch_activities`, by contrast, retries 429
without bound: under perpetual 429 its loop runs out of any finite fuel
instead of terminating. -/
theorem C5_retry_boundedness :
    (∀ p : Nat → DetailResp, (fetch_activity_details p).2 ≤ 3) ∧
    fetch_activity_details (fun _ => DetailResp.rate) = (none, 3) ∧
    (∀ (newTok tok : String) (after : Option ℤ) (fuel page : Nat)
       (acc : List Activity) (log : List PageReq),
       (fetchGo newTok after fuel (fun _ => PageResp.rate) tok page acc log).1
         = .outOfFuel) := by
  refine ⟨fun p => ?_, by decide, fun newTok tok after fuel page acc log => ?_⟩
  · exact fetchDetailGo_req_bound p 3 0
  · exact fetchGo_allRate newTok after fuel tok page acc log

/-- C5 counterexample: a provider that answers 429 on every request makes
`fetch_activities` loop forever — there is no fuel bound under which the
loop reaches any terminating outcome, refuting the claim that its
rate-limit retries are bounded. -/
theorem C5_counterexample :
    ¬ ∃ fuel : Nat,
        (fetch_activities (fun _ => PageResp.rate) "tok" "newTok" none fuel).1
          ≠ .outOfFuel := by
  rintro ⟨fuel, h⟩
  exact h (fetchGo_allRate "newTok" none fuel "tok" 1 [] [])

/-- C6 (confirmed): on a 401 mid-fetch, one fresh credential is obtained
and the same page is re-requested once with the new token; a second
consecutive 401 aborts the fetch with an authentication error after
exactly those two requests (no third attempt for the page), while a
successful retry continues the pagination from the retried response. -/
theorem C6_auth_expiry_single_retry (p : Nat → PageResp) (tok newTok : String)
    (after : Option ℤ) (fuel page : Nat) (acc : List Activity)
    (log : List PageReq) (xs : List Activity) :
    (p 0 = .unauth → p 1 = .unauth →
       fetchGo newTok after (fuel + 1) p tok page acc log
         = (.authError, log ++ [⟨page, 200, after, tok⟩, ⟨page, 200, after, newTok⟩])) ∧
    (p 0 = .unauth → p 1 = .ok xs → xs ≠ [] →
       fetchGo newTok after (fuel + 1) p tok page acc log
         = fetchGo newTok after fuel (shiftResp p 2) newTok (page + 1) (acc ++ xs)
             (log ++ [⟨page, 200, after, tok⟩, ⟨page, 200, after, newTok⟩])) := by
  constructor
  · intro h0 h1
    simp [fetchGo, h0, h1]
  · intro h0 h1 hne
    have he : xs.isEmpty = false := by
      cases xs with
      | nil => exact absurd rfl hne
      | cons a t => rfl
    simp [fetchGo, h0, h1, he]

/-- Witness for `C6_auth_expiry_single_retry`: a provider answering 401
twice, and one answering 401 then a non-empty page. -/
theorem C6_witness :
    (consResp .unauth (consResp .unauth (fun _ => PageResp.rate))) 0 = .unauth ∧
      fetchGo "new" none 3 (consResp .unauth (consResp .unauth (fun _ => PageResp.rate)))
          "old" 1 [] []
        = (.authError, [⟨1, 200, none, "old"⟩, ⟨1, 200, none, "new"⟩]) ∧
      fetchGo "new" none 3 (consResp .unauth (consResp (.ok [act42]) (fun _ => PageResp.ok [])))
          "old" 1 [] []
        = fetchGo "new" none 2
            (shiftResp (consResp .unauth (consResp (.ok [act42]) (fun _ => PageResp.ok []))) 2)
            "new" 2 [act42] [⟨1, 200, none, "old"⟩, ⟨1, 200, none, "new"⟩] :=
  ⟨rfl,
    by
      have h := (C6_auth_expiry_single_retry
        (consResp .unauth (consResp .unauth (fun _ => PageResp.rate))) "old" "new" none 2 1
        [] [] []).1 rfl rfl
      simpa using h,
    by
      have h := (C6_auth_expiry_single_retry
        (consResp .unauth (consResp (.ok [act42]) (fun _ => PageResp.ok []))) "old" "new"
        none 2 1 [] [] [act42]).2 rfl rfl (by decide)
      simpa using h⟩

/-- C7 (confirmed): when the detail fetch for an activity id comes back
absent (404 or exhausted retries, i.e. `fetch_activity_details` yields
`none`), the run does not fail: the record forwarded to the sinks in that
activity's position is the unmodified summary record. -/
theorem C7_detail_fallback (providers : Nat → Nat → DetailResp) (act : Activity)
    (n : Nat) (pre post : List Activity) (hid : act.id = some n) (hn : n ≠ 0)
    (habsent : (fetch_activity_details (providers n)).1 = none) :
    detailPhase providers (pre ++ act :: post)
      = detailPhase providers pre ++ act :: detailPhase providers post := by
  unfold detailPhase
  rw [List.filterMap_append, List.filterMap_cons]
  simp [hid, hn, habsent]

/-- Witness for `C7_detail_fallback`: every detail request fails with 500,
so retries are exhausted and the summary record for id 42 is forwarded
unchanged. -/
theorem C7_witness :
    act42.id = some 42 ∧
      (fetch_activity_details ((fun _ _ => DetailResp.fail 500) 42)).1 = none ∧
      detailPhase (fun _ _ => DetailResp.fail 500) ([] ++ act42 :: [])
        = detailPhase (fun _ _ => DetailResp.fail 500) []
            ++ act42 :: detailPhase (fun _ _ => DetailResp.fail 500) [] :=
  ⟨rfl, by decide,
    C7_detail_fallback (fun _ _ => DetailResp.fail 500) act42 42 [] [] rfl
      (by decide) (by decide)⟩

/-- The fold Python's `max` performs returns either its initial value or
a list element. -/
theorem foldl_pickMax_eq_or_mem (l : List PyDateTime) :
    ∀ a : PyDateTime, l.foldl pickMax a = a ∨ l.foldl pickMax a ∈ l := by
  induction l with
  | nil => intro a; exact Or.inl rfl
  | cons b t ih =>
    intro a
    simp only [List.foldl_cons]
    rcases ih (pickMax a b) with h | h
    · rw [h]
      by_cases hk : a.key < b.key
      · exact Or.inr (by simp [pickMax, hk])
      · exact Or.inl (by simp [pickMax, hk])
    · exact Or.inr (List.mem_cons_of_mem b h)

/-- The initial value's key never exceeds the fold's key. -/
theorem le_foldl_pickMax_init (l : List PyDateTime) :
    ∀ a : PyDateTime, a.key ≤ (l.foldl pickMax a).key := by
  induction l with
  | nil => intro a; exact Nat.le_refl _
  | cons b t ih =>
    intro a
    simp only [List.foldl_cons]
    refine Nat.le_trans ?_ (ih (pickMax a b))
    by_cases hk : a.key < b.key
    · simp only [pickMax, if_pos hk]; exact Nat.le_of_lt hk
    · simp only [pickMax, if_neg hk]; exact Nat.le_refl _

/-- No list element's key exceeds the fold's key. -/
theorem mem_key_le_foldl_pickMax (l : List PyDateTime) :
    ∀ (a x : PyDateTime), x ∈ l → x.key ≤ (l.foldl pickMax a).key := by
  induction l with
  | nil => intro a x hx; exact absurd hx (List.not_mem_nil x)
  | cons b t ih =>
    intro a x hx
    simp only [List.foldl_cons]
    rcases List.mem_cons.mp hx with rfl | h
    · refine Nat.le_trans ?_ (le_foldl_pickMax_init t (pickMax a x))
      by_cases hk : a.key < x.key
      · simp only [pickMax, if_pos hk]; exact Nat.le_refl _
      · simp only [pickMax, if_neg hk]; exact Nat.le_of_not_lt hk
    · exact ih (pickMax a b) x h

/-- C8 (confirmed): the watermark equals the maximum parseable date in
the file, independent of row order, and appending rows never lowers it.
Part 1: when the parseable dates of the persisted rows are, in any order,
three dates with strictly increasing keys, the loaded watermark is the
largest of them.  Part 2: across runs the file only grows by appended
rows (`save_csv` appends), and appending rows never decreases the
watermark's key, so the watermark never regresses. -/
theorem C8_watermark_max_monotone :
    (∀ (rows : List CsvRow) (d1 d2 d3 : PyDateTime),
       d1.key < d2.key → d2.key < d3.key →
       (parsedDates rows).Perm [d1, d2, d3] →
       get_last_activity_date (some rows) = some d3) ∧
    (∀ rows newRows : List CsvRow,
       wmKey (get_last_activity_date (some rows))
         ≤ wmKey (get_last_activity_date (some (rows ++ newRows)))) ∧
    (∀ (activities : List Activity) (rows : List CsvRow),
       ∃ appended, (save_csv activities (some rows)).1 = some (rows ++ appended)) := by
  refine ⟨?_, ?_, ?_⟩
  · intro rows d1 d2 d3 h12 h23 hperm
    cases hd : parsedDates rows with
    | nil => rw [hd] at hperm; exact absurd hperm.length_eq (by simp)
    | cons d ds =>
      rw [hd] at hperm
      simp only [get_last_activity_date, hd]
      set m := ds.foldl pickMax d with hm
      have hmem : m ∈ d :: ds := by
        rcases foldl_pickMax_eq_or_mem ds d with h | h
        · rw [hm, h]; exact List.mem_cons_self d ds
        · exact List.mem_cons_of_mem d h
      have hub : ∀ x ∈ d :: ds, x.key ≤ m.key := by
        intro x hx
        rcases List.mem_cons.mp hx with rfl | hx
        · exact le_foldl_pickMax_init ds x
        · exact mem_key_le_foldl_pickMax ds d x hx
      have hd3 : d3.key ≤ m.key := hub d3 (hperm.mem_iff.mpr (by simp))
      have hm3 : m ∈ [d1, d2, d3] := hperm.mem_iff.mp hmem
      have : m = d3 := by
        rcases List.mem_cons.mp hm3 with rfl | hm3
        · exact absurd (Nat.lt_of_lt_of_le (Nat.lt_trans h12 h23) hd3) (Nat.lt_irrefl _)
        · rcases List.mem_cons.mp hm3 with rfl | hm3
          · exact absurd (Nat.lt_of_lt_of_le h23 hd3) (Nat.lt_irrefl _)
          · rcases List.mem_cons.mp hm3 with rfl | hm3
            · rfl
            · exact absurd hm3 (List.not_mem_nil m)
      rw [this]
  · intro rows newRows
    have happ : parsedDates (rows ++ newRows) = parsedDates rows ++ parsedDates newRows :=
      List.filterMap_append rows newRows _
    cases hd : parsedDates rows with
    | nil =>
      simp only [get_last_activity_date, hd, wmKey]
      exact Nat.zero_le _
    | cons d ds =>
      have : parsedDates (rows ++ newRows) = d :: (ds ++ parsedDates newRows) := by
        rw [happ, hd]; rfl
      simp only [get_last_activity_date, hd, this, wmKey, List.foldl_append]
      exact le_foldl_pickMax_init (parsedDates newRows) (ds.foldl pickMax d)
  · intro activities rows
    by_cases hnew : csvNewRows activities (some rows) = []
    · exact ⟨[], by simp [save_csv, hnew]⟩
    · exact ⟨csvNewRows activities (some rows), by simp [save_csv, hnew]⟩

/-- Witness for `C8_watermark_max_monotone`: three rows written out of
order; the loaded watermark is the latest of the three dates. -/
theorem C8_witness :
    (PyDateTime.mk 2023 5 1 12 0 0).key < (PyDateTime.mk 2023 5 2 0 0 0).key ∧
      (parsedDates
          [rowWithDatum "2023-05-03T08:00:00Z", rowWithDatum "2023-05-01 12:00:00",
           rowWithDatum "2023-05-02"]).Perm
        [PyDateTime.mk 2023 5 1 12 0 0, PyDateTime.mk 2023 5 2 0 0 0,
         PyDateTime.mk 2023 5 3 8 0 0] ∧
      get_last_activity_date
          (some [rowWithDatum "2023-05-03T08:00:00Z", rowWithDatum "2023-05-01 12:00:00",
                 rowWithDatum "2023-05-02"])
        = some (PyDateTime.mk 2023 5 3 8 0 0) :=
  ⟨by decide, by decide,
    C8_watermark_max_monotone.1
      [rowWithDatum "2023-05-03T08:00:00Z", rowWithDatum "2023-05-01 12:00:00",
       rowWithDatum "2023-05-02"]
      (PyDateTime.mk 2023 5 1 12 0 0) (PyDateTime.mk 2023 5 2 0 0 0)
      (PyDateTime.mk 2023 5 3 8 0 0) (by decide) (by decide) (by decide)⟩

end StravaSync
